import Mathlib

/-!
# Shallow embedding of `src/app.py` (Brown Thomas Manual Transfer File Processor)

The script loads an Excel workbook, lets the user pick one template sheet and a
set of source sheets, concatenates the source sheets, deduplicates them on the
`Pim Parent ID` column (first occurrence wins), and then walks the template rows
writing mapped source values into the template columns in place, finally
emitting the mutated template as the output sheet.

Cells are modelled as a tagged scalar (`Cell`): missing/NaN, string, Python
int, or a finite Python float (modelled as a rational; the pipeline's float
values are decimal artifacts such as `12345.0`, for which ℚ is exact).
A sheet is a column-name list plus a list of rows aligned with the columns.
-/

/-- A spreadsheet cell as pandas delivers it: NaN/None (`blank`), a string,
an integer, or a finite float (modelled as a rational number). -/
inductive Cell where
  | blank
  | str (s : String)
  | int (n : Int)
  | float (q : ℚ)
deriving DecidableEq, Repr

/-- `pd.isna` on a cell: true exactly for the missing value. -/
def isNa : Cell → Bool
  | .blank => true
  | _ => false

/-- The equality class a cell falls into under Python `==` / pandas hash
lookup: numbers (int and float) compare by numeric value, strings by string
equality, and pandas' hash table treats all missing values as one group
(`drop_duplicates` groups NaNs; `NaN in index` is true when a NaN is present). -/
def keyClass : Cell → Unit ⊕ ℚ ⊕ String
  | .blank => Sum.inl ()
  | .int n => Sum.inr (Sum.inl (n : ℚ))
  | .float q => Sum.inr (Sum.inl q)
  | .str s => Sum.inr (Sum.inr s)

/-- Key equality as used by `drop_duplicates` and by `ppid in source_lookup.index`:
Python `==` with pandas' missing-value grouping. -/
def keyEq (a b : Cell) : Bool :=
  decide (keyClass a = keyClass b)

/-- A sheet: ordered column labels and rows; each row is a list of cells
aligned with `cols`. -/
structure Sheet where
  cols : List String
  rows : List (List Cell)
deriving DecidableEq, Repr

/-- Read the cell of `row` under column `c` (pandas label lookup; `blank`
when the column is absent, which in the pipeline only happens where pandas
would have filled NaN). -/
def getCell (cols : List String) (row : List Cell) (c : String) : Cell :=
  match cols.findIdx? (· == c) with
  | some i => row.getD i .blank
  | none => .blank

/-- `df.at[idx, c] = v`: write cell `v` under column `c` of `row`. -/
def setCell (cols : List String) (row : List Cell) (c : String) (v : Cell) :
    List Cell :=
  match cols.findIdx? (· == c) with
  | some i => row.set i v
  | none => row

/-- Column set of `pd.concat(source_dfs)`: columns in order of first
appearance across the sheets. -/
def unionCols (sheets : List Sheet) : List String :=
  sheets.foldl (fun acc s => acc ++ s.cols.filter (fun c => !acc.contains c)) []

/-- Align one source row to the concatenated column set; columns the sheet
lacks are filled with NaN, as `pd.concat` does. -/
def padRow (allCols : List String) (cols : List String) (row : List Cell) :
    List Cell :=
  allCols.map (getCell cols row)

/-- `combined_source = pd.concat(source_dfs, ignore_index=True)` for a
non-empty selection. On an empty list `pd.concat` raises
`ValueError: No objects to concatenate`; `process` models that abort before
this alignment is consulted, so this (total) function's value at `[]` is
never used by the pipeline. -/
def combinedSource (sheets : List Sheet) : Sheet :=
  let allCols := unionCols sheets
  { cols := allCols
    rows := sheets.foldr (fun s acc => s.rows.map (padRow allCols s.cols) ++ acc) [] }

/-- `drop_duplicates(subset=[key], keep='first')`: keep a row iff no earlier
row has an equal key; `seen` accumulates the keys of kept rows. -/
def dropDupBy (keyOf : α → Cell) (seen : List Cell) : List α → List α
  | [] => []
  | r :: rs =>
    if seen.any (fun k => keyEq k (keyOf r)) then
      dropDupBy keyOf seen rs
    else
      r :: dropDupBy keyOf (keyOf r :: seen) rs

/-- ASCII uppercase of one character (the script's header data is ASCII, so
this coincides with Python `str.upper`). -/
def charUpper (c : Char) : Char :=
  if 97 ≤ c.toNat && c.toNat ≤ 122 then Char.ofNat (c.toNat - 32) else c

/-- ASCII lowercase of one character (coincides with Python `str.lower` on the
script's header data). -/
def charLower (c : Char) : Char :=
  if 65 ≤ c.toNat && c.toNat ≤ 90 then Char.ofNat (c.toNat + 32) else c

/-- Python `s.upper()`. -/
def strUpper (s : String) : String :=
  ⟨s.data.map charUpper⟩

/-- Python `s.lower()`. -/
def strLower (s : String) : String :=
  ⟨s.data.map charLower⟩

/-- Is `pat` a contiguous substring of `hay` (Python `pat in hay`)? -/
def containsSubAux (pat : List Char) : List Char → Bool
  | [] => pat.isEmpty
  | c :: rest => pat.isPrefixOf (c :: rest) || containsSubAux pat rest

/-- Python's `pat in hay` on strings. -/
def containsSub (hay pat : String) : Bool :=
  containsSubAux pat.data hay.data

/-- The loop `for col in template_df.columns: if 'PPID' in col.upper(): ... break`:
first template column whose uppercased name contains `"PPID"`. -/
def findPpidColTemplate (cols : List String) : Option String :=
  cols.find? (fun c => containsSub (strUpper c) "PPID")

/-- The loop `for col in combined_source.columns: if 'pim parent id' in col.lower(): ... break`:
first combined-source column whose lowercased name contains `"pim parent id"`. -/
def findPpidColSource (cols : List String) : Option String :=
  cols.find? (fun c => containsSub (strLower c) "pim parent id")

/-- The script's static `column_mapping` dict (template column → source column). -/
def columnMapping : List (String × String) :=
  [ ("SKU", "Retek ID"),
    ("BARCODE", "Barcode"),
    ("DESCRIPTION", "Retek Item Description"),
    ("COLOUR", "Diff 1 Description"),
    ("SIZE", "UK Size Concat"),
    ("PRODUCT TYPE", "Product Type UDA"),
    ("DIVISION", "Division Name"),
    ("BRAND", "Brand"),
    ("DEPARTMENT", "Department Name"),
    ("DEPARTMENT NUMBER", "Department Number"),
    ("DIVISION NUMBER", "Division Number"),
    ("STORE 301 ALLOCATION", "Store 301 Allocation"),
    ("STORE 401 ALLOCATION", "Store 401 Allocation"),
    ("ITEM STORE FLAG", "Item Store Flag"),
    ("VPN PARENT", "VPN Parent") ]

/-- The loop `for col in template_df.columns: if col.upper() == template_col.upper(): ... break`. -/
def findTemplateColCI (cols : List String) (target : String) : Option String :=
  cols.find? (fun c => strUpper c == strUpper target)

/-- The loop `for col in source_lookup.columns: if col.lower() == source_col.lower(): ... break`. -/
def findSourceColCI (cols : List String) (target : String) : Option String :=
  cols.find? (fun c => strLower c == strLower target)

/-- Digits to a natural number (most significant first). -/
def natOfDigits (ds : List Char) : Nat :=
  ds.foldl (fun a c => a * 10 + (c.toNat - 48)) 0

/-- Parse an unsigned decimal mantissa: `digits`, `digits.digits`, `digits.`,
or `.digits`; returns the concatenated digit value, the number of fractional
digits, and the unconsumed remainder. -/
def parseMantissa (cs : List Char) : Option (Nat × Nat × List Char) :=
  let ip := cs.takeWhile Char.isDigit
  let rest := cs.dropWhile Char.isDigit
  match rest with
  | '.' :: rest2 =>
    let fp := rest2.takeWhile Char.isDigit
    let rest3 := rest2.dropWhile Char.isDigit
    if ip.isEmpty && fp.isEmpty then none
    else some (natOfDigits (ip ++ fp), fp.length, rest3)
  | _ => if ip.isEmpty then none else some (natOfDigits ip, 0, rest)

/-- Exponent part after `e`/`E`: optional sign then digits, nothing after. -/
def parseExpInt (t : List Char) : Option Int :=
  let (neg, t2) :=
    match t with
    | '+' :: u => (false, u)
    | '-' :: u => (true, u)
    | u => (false, u)
  let ds := t2.takeWhile Char.isDigit
  let rest := t2.dropWhile Char.isDigit
  if ds.isEmpty || !rest.isEmpty then none
  else if neg then some (-(natOfDigits ds : Int))
  else some (natOfDigits ds : Int)

/-- The rational `±mant · 10^(e - fracLen)`: the exact value of a decimal
literal with digit value `mant`, `fracLen` fractional digits and exponent `e`. -/
def decimalValue (neg : Bool) (mant fracLen : Nat) (e : Int) : ℚ :=
  let n : Int := if neg then -(mant : Int) else (mant : Int)
  let p : Int := e - (fracLen : Int)
  if 0 ≤ p then mkRat (n * ((10 : Int) ^ p.toNat)) 1
  else mkRat n ((10 : Nat) ^ (-p).toNat)

/-- Python `float(s)` on a string, modelled for finite decimal literals:
surrounding whitespace stripped, optional sign, decimal mantissa, optional
exponent. (`inf`/`nan` literals and digit underscores are outside the
pipeline's data and are not modelled; on them the model, like an unparsable
string, yields `none`.) -/
def pyFloatOfString (s : String) : Option ℚ :=
  let cs := ((s.data.dropWhile Char.isWhitespace).reverse.dropWhile Char.isWhitespace).reverse
  let (neg, cs2) :=
    match cs with
    | '+' :: t => (false, t)
    | '-' :: t => (true, t)
    | t => (false, t)
  match parseMantissa cs2 with
  | none => none
  | some (mant, fracLen, rest) =>
    match rest with
    | [] => some (decimalValue neg mant fracLen 0)
    | 'e' :: t => (parseExpInt t).map (decimalValue neg mant fracLen)
    | 'E' :: t => (parseExpInt t).map (decimalValue neg mant fracLen)
    | _ => none

/-- Python `float(value)` on a cell; `none` models the `ValueError`/`TypeError`
the script catches. -/
def pyFloatOfCell : Cell → Option ℚ
  | .int n => some (n : ℚ)
  | .float q => some q
  | .str s => pyFloatOfString s
  | .blank => none

/-- Python `int(f)` on a float: truncation toward zero. -/
def ratTrunc (q : ℚ) : Int :=
  Int.tdiv q.num (q.den : Int)

/-- The barcode special case:
`if pd.notna(value): try: value = int(float(value)) except (ValueError, TypeError): pass`. -/
def cleanBarcode (v : Cell) : Cell :=
  if isNa v then v
  else
    match pyFloatOfCell v with
    | some q => .int (ratTrunc q)
    | none => v

/-- One iteration of the inner `for template_col, source_col in column_mapping.items()`
loop: find both columns case-insensitively; if both exist, write the source
value (integer-coerced for BARCODE) into the template row, else do nothing. -/
def applyOneMapping (tCols sCols : List String) (srcRow : List Cell)
    (row : List Cell) (m : String × String) : List Cell :=
  match findTemplateColCI tCols m.1, findSourceColCI sCols m.2 with
  | some tc, some sc =>
    let v := getCell sCols srcRow sc
    let v2 := if strUpper m.1 == "BARCODE" then cleanBarcode v else v
    setCell tCols row tc v2
  | _, _ => row

/-- One iteration of the outer `for idx, row in template_df.iterrows()` loop:
skip rows whose key is NaN; look the key up in the deduplicated source
records; on a hit apply every mapping entry, otherwise leave the row alone. -/
def mergeRow (tCols : List String) (tKey : String) (sCols : List String)
    (entries : List (Cell × List Cell)) (row : List Cell) : List Cell :=
  let ppid := getCell tCols row tKey
  if isNa ppid then row
  else
    match entries.find? (fun e => keyEq e.1 ppid) with
    | some e => columnMapping.foldl (fun r m => applyOneMapping tCols sCols e.2 r m) row
    | none => row

/-- Fatal conditions: the `ValueError` that `pd.concat` raises when zero
source sheets are selected (reaching the blanket exception handler before any
column search), and the two `st.error` branches after the column searches. -/
inductive ProcError where
  | concatNoObjects
  | noPpidTemplate
  | noPpidSource
deriving DecidableEq, Repr

/-- The displayed error texts: the blanket handler renders the concat
`ValueError` as "Error processing file: " plus the exception text; the other
two are the explicit `st.error` messages. -/
def errorMessage : ProcError → String
  | .concatNoObjects => "Error processing file: No objects to concatenate"
  | .noPpidTemplate => "Could not find PPID column in template sheet!"
  | .noPpidSource => "Could not find 'Pim Parent ID' column in source sheets!"

/-- `source_lookup = combined_source_unique.set_index(ppid_col_source)`:
each deduplicated row becomes (key cell, row with the key column removed);
the lookup's column list is the combined columns minus the key column. -/
def sourceEntries (sKey : String) (cols : List String)
    (rows : List (List Cell)) : List (Cell × List Cell) :=
  rows.map (fun r =>
    ( getCell cols r sKey,
      match cols.findIdx? (· == sKey) with
      | some i => r.eraseIdx i
      | none => r ))

/-- The whole processing pipeline of `src/app.py` for a chosen template sheet
and selected source sheets: concatenate sources — with zero selected sheets
`pd.concat` raises `ValueError` here, before any column search — then locate
the key columns (fatal error when absent), deduplicate by key keeping the
first occurrence, build the lookup, and rewrite the template rows in place. -/
def process (template : Sheet) (sources : List Sheet) : Except ProcError Sheet :=
  match sources with
  | [] => .error .concatNoObjects
  | _ :: _ =>
  match findPpidColTemplate template.cols with
  | none => .error .noPpidTemplate
  | some tKey =>
    match findPpidColSource (combinedSource sources).cols with
    | none => .error .noPpidSource
    | some sKey =>
      .ok { cols := template.cols
            rows := template.rows.map
              (mergeRow template.cols tKey ((combinedSource sources).cols.erase sKey)
                (sourceEntries sKey (combinedSource sources).cols
                  (dropDupBy (fun r => getCell (combinedSource sources).cols r sKey) []
                    (combinedSource sources).rows))) }

instance : DecidableEq (Except ProcError Sheet) := fun a b =>
  match a, b with
  | .error x, .error y =>
    if h : x = y then .isTrue (by rw [h]) else .isFalse (fun hh => by cases hh; exact h rfl)
  | .ok x, .ok y =>
    if h : x = y then .isTrue (by rw [h]) else .isFalse (fun hh => by cases hh; exact h rfl)
  | .error _, .ok _ => .isFalse (fun hh => by cases hh)
  | .ok _, .error _ => .isFalse (fun hh => by cases hh)

/-- `Modelled from the spec:` the Header Normalizer of spec §4.1, which the
script under `src/` does not implement; used only to compare the spec's
whitespace-normalized matching against the script's case-only matching.
"convert to text, lowercase, replace line-feed and carriage-return characters
with a single space, strip leading/trailing whitespace." -/
def specNormalizeHeader (s : String) : String :=
  let replaced := (strLower s).data.map (fun c => if c == '\n' || c == '\r' then ' ' else c)
  ⟨(replaced.dropWhile Char.isWhitespace).reverse.dropWhile Char.isWhitespace |>.reverse⟩

/-! ## Helper lemmas -/

theorem keyEq_true_iff (a b : Cell) : keyEq a b = true ↔ keyClass a = keyClass b := by
  simp [keyEq]

theorem keyEq_congr_left {a b : Cell} (hab : keyEq a b = true) (c : Cell) :
    keyEq a c = keyEq b c := by
  unfold keyEq
  rw [(keyEq_true_iff a b).mp hab]

theorem find?_first {α : Type} (p : α → Bool) :
    ∀ (l : List α) (a : α), l.find? p = some a →
      ∃ i : Fin l.length, l.get i = a ∧ p a = true ∧
        ∀ j : Fin l.length, (j : Nat) < (i : Nat) → p (l.get j) = false := by
  intro l
  induction l with
  | nil => intro a h; cases h
  | cons x xs ih =>
    intro a h
    by_cases hx : p x = true
    · rw [List.find?_cons_of_pos _ hx] at h
      injection h with h
      subst h
      exact ⟨⟨0, by simp⟩, rfl, hx, fun j hj => absurd hj (Nat.not_lt_zero _)⟩
    · have hx2 : p x = false := by simpa using hx
      rw [List.find?_cons_of_neg _ hx] at h
      obtain ⟨i, hget, hpa, hmin⟩ := ih a h
      refine ⟨⟨i + 1, by simp [i.isLt]⟩, by simpa using hget, hpa, ?_⟩
      intro j hj
      match j with
      | ⟨0, _⟩ => simpa using hx2
      | ⟨jj + 1, hlt⟩ =>
        have hlt2 : jj < xs.length := by simpa using hlt
        have := hmin ⟨jj, hlt2⟩ (by simpa using hj)
        simpa using this

theorem findIdx?_some_lt {α : Type} {p : α → Bool} {l : List α} {i : Nat}
    (h : l.findIdx? p = some i) : ∃ hlt : i < l.length, p (l.get ⟨i, hlt⟩) = true := by
  obtain ⟨hlt, hp, _⟩ := List.findIdx?_eq_some_iff_getElem.mp h
  exact ⟨hlt, by simpa using hp⟩

theorem dropDupBy_sublist {α : Type} (keyOf : α → Cell) :
    ∀ (seen : List Cell) (l : List α), (dropDupBy keyOf seen l).Sublist l := by
  intro seen l
  induction l generalizing seen with
  | nil => simp [dropDupBy]
  | cons r rs ih =>
    rw [dropDupBy]
    split
    · exact (ih seen).cons r
    · exact (ih _).cons₂ r

theorem dropDupBy_find? {α : Type} (keyOf : α → Cell) (k : Cell) :
    ∀ (l : List α) (seen : List Cell), (∀ s ∈ seen, keyEq s k = false) →
      (dropDupBy keyOf seen l).find? (fun r => keyEq (keyOf r) k)
        = l.find? (fun r => keyEq (keyOf r) k) := by
  intro l
  induction l with
  | nil => intro seen _; rfl
  | cons r rs ih =>
    intro seen hseen
    rw [dropDupBy]
    split
    · rename_i hany
      obtain ⟨s, hs, hsk⟩ := List.any_eq_true.mp hany
      have hkr : keyEq (keyOf r) k = false := by
        rw [← keyEq_congr_left hsk k]
        exact hseen s hs
      rw [ih seen hseen, List.find?_cons_of_neg _ (by simp [hkr])]
    · by_cases hr : keyEq (keyOf r) k = true
      · rw [List.find?_cons_of_pos (p := fun x => keyEq (keyOf x) k) _ hr,
          List.find?_cons_of_pos (p := fun x => keyEq (keyOf x) k) _ hr]
      · have hr2 : keyEq (keyOf r) k = false := by simpa using hr
        rw [List.find?_cons_of_neg (p := fun x => keyEq (keyOf x) k) _ hr,
          List.find?_cons_of_neg (p := fun x => keyEq (keyOf x) k) _ hr]
        apply ih
        intro s hs
        rcases List.mem_cons.mp hs with rfl | hs2
        · exact hr2
        · exact hseen s hs2

theorem mem_unionCols_aux (x : String) :
    ∀ (sheets : List Sheet) (acc : List String),
      (x ∈ sheets.foldl (fun acc s => acc ++ s.cols.filter (fun c => !acc.contains c)) acc
        ↔ x ∈ acc ∨ ∃ s ∈ sheets, x ∈ s.cols) := by
  intro sheets
  induction sheets with
  | nil => intro acc; simp
  | cons s ss ih =>
    intro acc
    rw [List.foldl_cons, ih]
    constructor
    · rintro (hmem | hex)
      · rcases List.mem_append.mp hmem with hacc | hfil
        · exact Or.inl hacc
        · exact Or.inr ⟨s, List.mem_cons_self s ss, (List.mem_filter.mp hfil).1⟩
      · obtain ⟨t, ht, hx⟩ := hex
        exact Or.inr ⟨t, List.mem_cons_of_mem s ht, hx⟩
    · rintro (hacc | ⟨t, ht, hx⟩)
      · exact Or.inl (List.mem_append.mpr (Or.inl hacc))
      · rcases List.mem_cons.mp ht with rfl | ht2
        · by_cases hin : x ∈ acc
          · exact Or.inl (List.mem_append.mpr (Or.inl hin))
          · refine Or.inl (List.mem_append.mpr (Or.inr ?_))
            refine List.mem_filter.mpr ⟨hx, ?_⟩
            simpa [List.contains] using hin
        · exact Or.inr ⟨t, ht2, hx⟩

theorem mem_unionCols (x : String) (sheets : List Sheet) :
    x ∈ unionCols sheets ↔ ∃ s ∈ sheets, x ∈ s.cols := by
  rw [unionCols, mem_unionCols_aux]
  simp

theorem mem_combinedSource_rows_aux (allCols : List String) (row : List Cell) :
    ∀ (sheets : List Sheet) (s : Sheet), s ∈ sheets → row ∈ s.rows →
      padRow allCols s.cols row
        ∈ sheets.foldr (fun t acc => t.rows.map (padRow allCols t.cols) ++ acc) [] := by
  intro sheets
  induction sheets with
  | nil => intro s hs _; cases hs
  | cons t ts ih =>
    intro s hs hrow
    rw [List.foldr_cons]
    rcases List.mem_cons.mp hs with rfl | hs2
    · exact List.mem_append.mpr (Or.inl (List.mem_map_of_mem _ hrow))
    · exact List.mem_append.mpr (Or.inr (ih s hs2 hrow))

theorem mem_combinedSource_rows (sheets : List Sheet) (s : Sheet) (row : List Cell)
    (hs : s ∈ sheets) (hrow : row ∈ s.rows) :
    padRow (unionCols sheets) s.cols row ∈ (combinedSource sheets).rows :=
  mem_combinedSource_rows_aux (unionCols sheets) row sheets s hs hrow

theorem getCell_of_not_mem (cols : List String) (row : List Cell) (c : String)
    (h : c ∉ cols) : getCell cols row c = .blank := by
  unfold getCell
  have : cols.findIdx? (· == c) = none := by
    rw [List.findIdx?_eq_none_iff]
    intro x hx
    by_cases hxc : x = c
    · exact absurd (hxc ▸ hx) h
    · simpa using hxc
  rw [this]

theorem getCell_padRow_of_not_mem (allCols cols : List String) (row : List Cell)
    (c : String) (h : c ∉ cols) :
    getCell allCols (padRow allCols cols row) c = .blank := by
  rw [getCell]
  cases hf : allCols.findIdx? (· == c) with
  | none => rfl
  | some i =>
    obtain ⟨hlt, hp⟩ := findIdx?_some_lt hf
    have hic : allCols.get ⟨i, hlt⟩ = c := by simpa using hp
    show (padRow allCols cols row).getD i Cell.blank = Cell.blank
    unfold padRow
    rw [List.getD_eq_getElem?_getD, List.getElem?_map]
    have : allCols[i]? = some (allCols.get ⟨i, hlt⟩) := by
      simp [List.getElem?_eq_getElem hlt]
    rw [this]
    simp only [Option.map_some', Option.getD_some]
    rw [hic, getCell_of_not_mem cols row c h]

theorem keyEq_blank_of_not_na {c : Cell} (h : isNa c = false) :
    keyEq Cell.blank c = false := by
  cases c with
  | blank => simp [isNa] at h
  | str s => simp [keyEq, keyClass]
  | int n => simp [keyEq, keyClass]
  | float q => simp [keyEq, keyClass]

theorem combinedSource_cols (ss : List Sheet) :
    (combinedSource ss).cols = unionCols ss := rfl

theorem findPpidColSource_combined_none_iff (ss : List Sheet) :
    findPpidColSource (combinedSource ss).cols = none
      ↔ ∀ s ∈ ss, findPpidColSource s.cols = none := by
  unfold findPpidColSource
  rw [combinedSource_cols]
  constructor
  · intro h s hs
    rw [List.find?_eq_none] at h ⊢
    intro x hx
    exact h x ((mem_unionCols x ss).mpr ⟨s, hs, hx⟩)
  · intro h
    rw [List.find?_eq_none]
    intro x hx
    obtain ⟨s, hs, hxs⟩ := (mem_unionCols x ss).mp hx
    have h2 := h s hs
    rw [List.find?_eq_none] at h2
    exact h2 x hxs

/-! ## Claim theorems -/

/-- C1: for every template sheet `t` and collection of source sheets `ss`, a
successful run returns exactly one output row per template row, produced
pointwise in template order (the output row list is a map over the template
row list), so the left join never drops, duplicates, or reorders template
rows regardless of how many source records match. -/
theorem merge_preserves_template_rows (t : Sheet) (ss : List Sheet) (out : Sheet)
    (h : process t ss = Except.ok out) :
    out.rows.length = t.rows.length ∧ ∃ f, out.rows = t.rows.map f := by
  cases ss with
  | nil => simp [process] at h
  | cons s rest =>
    simp only [process] at h
    cases hT : findPpidColTemplate t.cols with
    | none =>
      rw [hT] at h
      exact Except.noConfusion h
    | some tKey =>
      rw [hT] at h
      cases hS : findPpidColSource (combinedSource (s :: rest)).cols with
      | none =>
        rw [hS] at h
        exact Except.noConfusion h
      | some sKey =>
        rw [hS] at h
        injection h with h2
        subst h2
        exact ⟨by simp, _, rfl⟩

/-- C1 witness: a concrete two-row template with one matching source record
keeps exactly its two rows. -/
theorem merge_preserves_template_rows_witness :
    (Sheet.mk ["PPID", "SKU"] [[Cell.str "1", Cell.str "A"], [Cell.str "2", Cell.blank]]).rows.length
      = (Sheet.mk ["PPID", "SKU"] [[Cell.str "1", Cell.blank], [Cell.str "2", Cell.blank]]).rows.length :=
  (merge_preserves_template_rows
    (Sheet.mk ["PPID", "SKU"] [[Cell.str "1", Cell.blank], [Cell.str "2", Cell.blank]])
    [Sheet.mk ["Pim Parent ID", "Retek ID"] [[Cell.str "1", Cell.str "A"]]]
    (Sheet.mk ["PPID", "SKU"] [[Cell.str "1", Cell.str "A"], [Cell.str "2", Cell.blank]])
    (by decide)).1

/-- C7: a successful run's output sheet has exactly the template's original
columns, in original order and casing (the script mutates the template frame
in place and never adds, renames, or reorders columns), so no source-only
column can appear in the output. -/
theorem merge_output_cols_fidelity (t : Sheet) (ss : List Sheet) (out : Sheet)
    (h : process t ss = Except.ok out) : out.cols = t.cols := by
  cases ss with
  | nil => simp [process] at h
  | cons s rest =>
    simp only [process] at h
    cases hT : findPpidColTemplate t.cols with
    | none =>
      rw [hT] at h
      exact Except.noConfusion h
    | some tKey =>
      rw [hT] at h
      cases hS : findPpidColSource (combinedSource (s :: rest)).cols with
      | none =>
        rw [hS] at h
        exact Except.noConfusion h
      | some sKey =>
        rw [hS] at h
        injection h with h2
        subst h2
        rfl

/-- C7 witness: a source sheet with a differently-cased matching column and an
extra column leaks nothing into the output columns. -/
theorem merge_output_cols_fidelity_witness :
    (Sheet.mk ["PPID", "SKU"] [[Cell.str "1", Cell.str "A"]]).cols = ["PPID", "SKU"] :=
  merge_output_cols_fidelity
    (Sheet.mk ["PPID", "SKU"] [[Cell.str "1", Cell.blank]])
    [Sheet.mk ["Pim Parent ID", "RETEK id", "Extra Col"]
      [[Cell.str "1", Cell.str "A", Cell.int 9]]]
    (Sheet.mk ["PPID", "SKU"] [[Cell.str "1", Cell.str "A"]])
    (by decide)

/-- C9: once the concatenation step has something to work on (at least one
source sheet selected), a template sheet lacking a PPID column, or combined
source columns lacking a Pim Parent ID column (equivalently: no selected
source sheet has one), makes the run return the corresponding fatal error —
whose message names the missing column — and no output sheet; with zero
selected sheets the run aborts even earlier, at `pd.concat`, again with an
error and no output; in every error case no output is produced. -/
theorem fatal_errors_abort_without_output (t : Sheet) (ss : List Sheet) :
    (ss ≠ [] → findPpidColTemplate t.cols = none →
      process t ss = Except.error ProcError.noPpidTemplate)
    ∧ (ss ≠ [] → (∃ c, findPpidColTemplate t.cols = some c) →
      findPpidColSource (combinedSource ss).cols = none →
      process t ss = Except.error ProcError.noPpidSource)
    ∧ (findPpidColSource (combinedSource ss).cols = none
      ↔ ∀ s ∈ ss, findPpidColSource s.cols = none)
    ∧ (ss = [] → process t ss = Except.error ProcError.concatNoObjects)
    ∧ (∀ e, process t ss = Except.error e → ∀ o, process t ss ≠ Except.ok o)
    ∧ containsSub (errorMessage ProcError.noPpidTemplate) "PPID" = true
    ∧ containsSub (errorMessage ProcError.noPpidSource) "Pim Parent ID" = true := by
  refine ⟨?_, ?_, findPpidColSource_combined_none_iff ss, ?_, ?_, by decide, by decide⟩
  · intro hne hT
    cases ss with
    | nil => exact absurd rfl hne
    | cons s rest =>
      unfold process
      rw [hT]
  · rintro hne ⟨c, hc⟩ hS
    cases ss with
    | nil => exact absurd rfl hne
    | cons s rest =>
      unfold process
      rw [hc, hS]
  · rintro rfl
    rfl
  · intro e he o ho
    rw [he] at ho
    exact Except.noConfusion ho

/-- C9 witness: with one (keyed) source sheet selected, a template without
any PPID column aborts with the template-side fatal error. -/
theorem fatal_errors_abort_without_output_witness :
    process (Sheet.mk ["NAME"] []) [Sheet.mk ["Pim Parent ID"] []]
      = Except.error ProcError.noPpidTemplate :=
  (fatal_errors_abort_without_output (Sheet.mk ["NAME"] [])
    [Sheet.mk ["Pim Parent ID"] []]).1 (by decide) (by decide)

/-- C2: looking up any key in the first-wins deduplicated record list gives
exactly what looking it up in the original concatenated list gives (the
first-encountered record for that key); the deduplicated list is a sublist of
the input (kept records are whole input rows, never merged field-by-field);
and on the spec's duplicate-key example the record with `retek_id = "A"` is
the one kept. -/
theorem dedup_first_record_wins (keyOf : List Cell → Cell)
    (rows : List (List Cell)) (k : Cell) :
    ((dropDupBy keyOf [] rows).find? (fun r => keyEq (keyOf r) k)
        = rows.find? (fun r => keyEq (keyOf r) k))
    ∧ (dropDupBy keyOf [] rows).Sublist rows
    ∧ dropDupBy (fun r => getCell ["ppid", "retek_id"] r "ppid") []
        [[Cell.str "1", Cell.str "A"], [Cell.str "1", Cell.str "B"]]
      = [[Cell.str "1", Cell.str "A"]] :=
  ⟨dropDupBy_find? keyOf k rows [] (fun s hs => absurd hs (List.not_mem_nil s)),
   dropDupBy_sublist keyOf [] rows,
   by decide⟩

/-- C5: the barcode cleaner turns the string "1234567890.0" into the integer
1234567890 (the `int(float(.))` coercion; the claim's "integer representation"
branch), leaves the non-coercible "ABC123" unchanged, and the pipeline applies
it to the value written into the BARCODE column of a matched template row. -/
theorem clean_barcode_behavior :
    cleanBarcode (Cell.str "1234567890.0") = Cell.int 1234567890
    ∧ cleanBarcode (Cell.str "ABC123") = Cell.str "ABC123"
    ∧ process (Sheet.mk ["PPID", "BARCODE"] [[Cell.str "7", Cell.blank]])
        [Sheet.mk ["Pim Parent ID", "Barcode"] [[Cell.str "7", Cell.str "1234567890.0"]]]
      = Except.ok (Sheet.mk ["PPID", "BARCODE"] [[Cell.str "7", Cell.int 1234567890]])
    ∧ process (Sheet.mk ["PPID", "BARCODE"] [[Cell.str "8", Cell.blank]])
        [Sheet.mk ["Pim Parent ID", "Barcode"] [[Cell.str "8", Cell.str "ABC123"]]]
      = Except.ok (Sheet.mk ["PPID", "BARCODE"] [[Cell.str "8", Cell.str "ABC123"]]) := by
  refine ⟨by decide, by decide, by decide, by decide⟩

/-- C6: a template row whose key is missing (NaN), or whose key matches no
deduplicated source record, comes out of the per-row merge step completely
unchanged — in particular every mapped column keeps its pre-merge value. -/
theorem unmatched_or_blank_key_row_unchanged (tCols : List String) (tKey : String)
    (sCols : List String) (entries : List (Cell × List Cell)) (row : List Cell)
    (h : isNa (getCell tCols row tKey) = true
      ∨ entries.find? (fun e => keyEq e.1 (getCell tCols row tKey)) = none) :
    mergeRow tCols tKey sCols entries row = row := by
  unfold mergeRow
  rcases h with h | h
  · simp [h]
  · by_cases hna : isNa (getCell tCols row tKey) = true
    · simp [hna]
    · simp [hna, h]

/-- C6 witness: a row whose key "9" has no source record is returned verbatim. -/
theorem unmatched_or_blank_key_row_unchanged_witness :
    mergeRow ["PPID", "SKU"] "PPID" ["Retek ID"] [] [Cell.str "9", Cell.str "keep"]
      = [Cell.str "9", Cell.str "keep"] :=
  unmatched_or_blank_key_row_unchanged ["PPID", "SKU"] "PPID" ["Retek ID"] []
    [Cell.str "9", Cell.str "keep"] (Or.inr (by decide))

/-- C10: the template key column is the first column (in column order) whose
uppercased name contains "PPID" as a substring, and the source key column is
the first combined-source column whose lowercased name contains
"pim parent id"; in particular "SUPPLIER PPID" is accepted as the template
key column. -/
theorem ppid_detection_substring_first_hit :
    (∀ cols c, findPpidColTemplate cols = some c →
      containsSub (strUpper c) "PPID" = true
      ∧ ∃ i : Fin cols.length, cols.get i = c
        ∧ ∀ j : Fin cols.length, (j : Nat) < (i : Nat) →
            containsSub (strUpper (cols.get j)) "PPID" = false)
    ∧ (∀ cols c, findPpidColSource cols = some c →
      containsSub (strLower c) "pim parent id" = true
      ∧ ∃ i : Fin cols.length, cols.get i = c
        ∧ ∀ j : Fin cols.length, (j : Nat) < (i : Nat) →
            containsSub (strLower (cols.get j)) "pim parent id" = false)
    ∧ findPpidColTemplate ["SUPPLIER PPID"] = some "SUPPLIER PPID" := by
  refine ⟨?_, ?_, by decide⟩
  · intro cols c h
    obtain ⟨i, hget, hp, hmin⟩ := find?_first _ cols c h
    exact ⟨hp, i, hget, hmin⟩
  · intro cols c h
    obtain ⟨i, hget, hp, hmin⟩ := find?_first _ cols c h
    exact ⟨hp, i, hget, hmin⟩

/-- C10 witness: on `["Desc", "My PPID"]` the detected column is the first
(and here only) one containing "PPID". -/
theorem ppid_detection_substring_first_hit_witness :
    containsSub (strUpper "My PPID") "PPID" = true
    ∧ ∃ i : Fin (["Desc", "My PPID"].length), ["Desc", "My PPID"].get i = "My PPID"
      ∧ ∀ j : Fin (["Desc", "My PPID"].length), (j : Nat) < (i : Nat) →
          containsSub (strUpper (["Desc", "My PPID"].get j)) "PPID" = false :=
  ppid_detection_substring_first_hit.1 ["Desc", "My PPID"] "My PPID" (by decide)

/-- C3 counterexample: the script performs no key normalization at all — the
template key string "12345" and the source key integer 12345 do not compare
equal under the raw lookup, so the template row is left unfilled even though
the claim requires the keys to match. -/
theorem key_type_mismatch_cex :
    keyEq (Cell.str "12345") (Cell.int 12345) = false
    ∧ process (Sheet.mk ["PPID", "SKU"] [[Cell.str "12345", Cell.blank]])
        [Sheet.mk ["Pim Parent ID", "Retek ID"] [[Cell.int 12345, Cell.str "A"]]]
      = Except.ok (Sheet.mk ["PPID", "SKU"] [[Cell.str "12345", Cell.blank]]) := by
  refine ⟨by decide, by decide⟩

/-- C3 amended: key matching is raw Python value equality — the integer `n`
and the float of the same value match (numeric equality, so integer 12345
matches float 12345.0), but a string key never matches a numeric key, and no
trailing-`.0` normalization is performed; concretely an integer template key
7 does match a float source key 7.0 through the whole pipeline. -/
theorem key_matching_raw_equality (n : Int) (s : String) :
    keyEq (Cell.int n) (Cell.float (n : ℚ)) = true
    ∧ keyEq (Cell.str s) (Cell.int n) = false
    ∧ keyEq (Cell.str s) (Cell.float (n : ℚ)) = false
    ∧ process (Sheet.mk ["PPID", "SKU"] [[Cell.int 7, Cell.blank]])
        [Sheet.mk ["Pim Parent ID", "Retek ID"] [[Cell.float 7, Cell.str "A"]]]
      = Except.ok (Sheet.mk ["PPID", "SKU"] [[Cell.int 7, Cell.str "A"]]) := by
  refine ⟨by simp [keyEq, keyClass], by simp [keyEq, keyClass],
    by simp [keyEq, keyClass], by decide⟩

/-- C4 counterexample: with one keyed sheet and one keyless sheet selected,
the keyless sheet is not skipped — its row (padded with a missing key) is
present in the deduplicated aggregated record set, and processing succeeds
with no warning recorded anywhere in the result. -/
theorem keyless_sheet_not_excluded_cex :
    (dropDupBy (fun r => getCell ["Pim Parent ID", "Retek ID", "Foo"] r "Pim Parent ID") []
        (combinedSource
          [Sheet.mk ["Pim Parent ID", "Retek ID"] [[Cell.int 1, Cell.str "A"]],
           Sheet.mk ["Foo"] [[Cell.str "X"]]]).rows)
      = [[Cell.int 1, Cell.str "A", Cell.blank], [Cell.blank, Cell.blank, Cell.str "X"]]
    ∧ process (Sheet.mk ["PPID"] [[Cell.int 1]])
        [Sheet.mk ["Pim Parent ID", "Retek ID"] [[Cell.int 1, Cell.str "A"]],
         Sheet.mk ["Foo"] [[Cell.str "X"]]]
      = Except.ok (Sheet.mk ["PPID"] [[Cell.int 1]]) := by
  refine ⟨by decide, by decide⟩

/-- C4 amended: a source sheet lacking the key column is not excluded: each of
its rows enters the concatenated record set, padded so that its key cell is
the missing value; such a missing key never compares equal to a non-missing
template key, so those rows can never populate a template row (template rows
with missing keys are themselves skipped). -/
theorem keyless_sheet_rows_inert (sheets : List Sheet) (s : Sheet) (hs : s ∈ sheets)
    (row : List Cell) (hrow : row ∈ s.rows) (kc : String) (hkc : kc ∉ s.cols)
    (tkey : Cell) (htk : isNa tkey = false) :
    padRow (unionCols sheets) s.cols row ∈ (combinedSource sheets).rows
    ∧ getCell (unionCols sheets) (padRow (unionCols sheets) s.cols row) kc = Cell.blank
    ∧ keyEq (getCell (unionCols sheets) (padRow (unionCols sheets) s.cols row) kc) tkey
        = false :=
  ⟨mem_combinedSource_rows sheets s row hs hrow,
   getCell_padRow_of_not_mem _ _ _ _ hkc,
   by
    rw [getCell_padRow_of_not_mem _ _ _ _ hkc]
    exact keyEq_blank_of_not_na htk⟩

/-- C4 witness: a keyless sheet's row is in the combined record set with a
missing key cell that matches no non-missing key. -/
theorem keyless_sheet_rows_inert_witness :
    padRow (unionCols [Sheet.mk ["Foo"] [[Cell.str "X"]]]) ["Foo"] [Cell.str "X"]
      ∈ (combinedSource [Sheet.mk ["Foo"] [[Cell.str "X"]]]).rows :=
  (keyless_sheet_rows_inert [Sheet.mk ["Foo"] [[Cell.str "X"]]]
    (Sheet.mk ["Foo"] [[Cell.str "X"]]) (by decide) [Cell.str "X"] (by decide)
    "Pim Parent ID" (by decide) (Cell.int 5) (by decide)).1

/-- C8 counterexample: column matching is not whitespace-normalized — the
template header " SKU" (leading space) is equated with "SKU" by the spec's
header normalizer, but the script's case-insensitive exact comparison fails
to match it, so the mapping pair silently does nothing and the matched row's
" SKU" cell stays blank. -/
theorem mapping_whitespace_cex :
    specNormalizeHeader " SKU" = specNormalizeHeader "SKU"
    ∧ findTemplateColCI ["PPID", " SKU"] "SKU" = none
    ∧ process (Sheet.mk ["PPID", " SKU"] [[Cell.int 1, Cell.blank]])
        [Sheet.mk ["Pim Parent ID", "Retek ID"] [[Cell.int 1, Cell.str "A"]]]
      = Except.ok (Sheet.mk ["PPID", " SKU"] [[Cell.int 1, Cell.blank]]) := by
  refine ⟨by decide, by decide, by decide⟩

/-- C8 amended: there are exactly 15 mapping pairs; the destination side is
matched against template headers by case-insensitive exact equality
(uppercasing, no whitespace normalization), the source side against source
headers by case-insensitive exact equality (lowercasing); a pair whose
destination or source column is absent is a no-op on the row; and
differently-cased headers do match. -/
theorem mapping_case_insensitive_exact (tCols sCols : List String)
    (srcRow row : List Cell) (m : String × String) :
    columnMapping.length = 15
    ∧ (∀ c, findTemplateColCI tCols m.1 = some c → strUpper c = strUpper m.1 ∧ c ∈ tCols)
    ∧ (∀ c, findSourceColCI sCols m.2 = some c → strLower c = strLower m.2 ∧ c ∈ sCols)
    ∧ (findTemplateColCI tCols m.1 = none ∨ findSourceColCI sCols m.2 = none →
        applyOneMapping tCols sCols srcRow row m = row)
    ∧ findTemplateColCI ["Sku"] "SKU" = some "Sku"
    ∧ findSourceColCI ["RETEK id"] "Retek ID" = some "RETEK id" := by
  refine ⟨rfl, ?_, ?_, ?_, by decide, by decide⟩
  · intro c h
    refine ⟨?_, List.mem_of_find?_eq_some h⟩
    have hp := List.find?_some h
    simpa using hp
  · intro c h
    refine ⟨?_, List.mem_of_find?_eq_some h⟩
    have hp := List.find?_some h
    simpa using hp
  · intro h
    unfold applyOneMapping
    rcases h with h | h
    · simp [h]
    · cases hT : findTemplateColCI tCols m.1 <;> simp [hT, h]

/-- C8 witness: a pair whose destination column is absent from the template
leaves the row untouched. -/
theorem mapping_case_insensitive_exact_witness :
    applyOneMapping ["PPID"] ["Retek ID"] [Cell.str "A"] [Cell.int 1] ("SKU", "Retek ID")
      = [Cell.int 1] :=
  (mapping_case_insensitive_exact ["PPID"] ["Retek ID"] [Cell.str "A"] [Cell.int 1]
    ("SKU", "Retek ID")).2.2.2.1 (Or.inl (by decide))
